import Mathlib

/-!
# EV-app (Malaysia EV Charging Tracker) — verification of the SessionLog transformer

A shallow embedding of the data-handling core of `src/app.py`:

* `load_data` — read the CSV, coerce `Date`/`Latitude`/`Longitude`, derive
  `Month`/`Day`, reindex to the canonical column set (app.py lines 54-80);
* the log-session form submit handler — provider validation, auto-geocoding,
  `cost_per_kwh` derivation, row assembly (lines 168-215);
* the sidebar month filter (lines 104-117);
* the daily-spend and top-locations aggregates (lines 241, 310-319);
* the bulk edit-and-resave recompute (lines 349-363).

Tabular data is modelled as a `DataFrame`: a column-name list plus rows of
`Value` cells, where `Value` covers the scalar kinds pandas can hold here
(missing, string, number, datetime).  Floats are modelled as `ℚ`; Python
`round(x, 3)` is modelled as round-half-to-even at three decimals.
Behaviour of the external libraries that the code calls cell-wise
(`pd.to_datetime` string parsing, `pd.to_numeric` string parsing,
`Timestamp.day_name`, the geopy geocoder) is abstracted into a `PandasEnv`
parameter; theorems quantify over it.
-/

set_option allowUnsafeReducibility true
attribute [semireducible] Rat.add Rat.mul Rat.inv Rat.div Rat.sub Rat.neg Rat.ofScientific

namespace EVApp

/-- A calendar date (pandas `Timestamp`, time-of-day irrelevant to this app). -/
structure Date where
  year : Nat
  month : Nat
  day : Nat
deriving DecidableEq, Repr

/-- A scalar cell value as pandas holds it in this app: missing
(`NaN`/`NaT`/`None`), a string, a float (modelled as `ℚ`), or a datetime. -/
inductive Value where
  | na : Value
  | str : String → Value
  | num : ℚ → Value
  | date : Date → Value
deriving DecidableEq, Repr

/-- Cell-wise behaviour of the external libraries (pandas parsers, geopy not
included — the geocoder is passed separately).  `parseDate` is
`pd.to_datetime` on a string with `errors="coerce"` semantics (`none` =
unparseable), `numAsDate` the same on a float, `parseNum` is
`pd.to_numeric` on a string, `numOfDate` is `pd.to_numeric` on a datetime,
`dayName` is `Timestamp.day_name()`. -/
structure PandasEnv where
  parseDate : String → Option Date
  numAsDate : ℚ → Option Date
  parseNum : String → Option ℚ
  numOfDate : Date → Option ℚ
  dayName : Date → String

/-- Cell-wise `pd.to_datetime(cell, errors="coerce")`: datetimes pass
through, missing stays missing, anything unparseable becomes `NaT`. -/
def toDatetime (env : PandasEnv) : Value → Value
  | .na => .na
  | .date d => .date d
  | .str s => (env.parseDate s).elim .na .date
  | .num q => (env.numAsDate q).elim .na .date

/-- Cell-wise `pd.to_numeric(cell, errors="coerce")`. -/
def toNumeric (env : PandasEnv) : Value → Value
  | .na => .na
  | .num q => .num q
  | .str s => (env.parseNum s).elim .na .num
  | .date d => (env.numOfDate d).elim .na .num

/-- Zero-pad a numeral to two digits (month part of a `Period` string). -/
def pad2 (n : Nat) : String :=
  if n < 10 then "0" ++ toString n else toString n

/-- Zero-pad a numeral to four digits (year part of a `Period` string). -/
def pad4 (n : Nat) : String :=
  if n < 10 then "000" ++ toString n
  else if n < 100 then "00" ++ toString n
  else if n < 1000 then "0" ++ toString n
  else toString n

/-- The `YYYY-MM` key `str(Timestamp.to_period("M"))` of a real date. -/
def monthFmt (d : Date) : String := pad4 d.year ++ "-" ++ pad2 d.month

/-- One cell of `df["Date"].dt.to_period("M").astype(str)`: a real date
formats as `YYYY-MM`; `NaT` stringifies to the literal string `"NaT"`. -/
def monthValue : Value → Value
  | .date d => .str (monthFmt d)
  | _ => .str "NaT"

/-- One cell of `df["Date"].dt.day_name()`: `NaT` gives missing. -/
def dayValue (env : PandasEnv) : Value → Value
  | .date d => .str (env.dayName d)
  | _ => .na

/-! ## Kernel-computable string helpers

`String.trim`/`String.splitOn`/`String.toNat?` from core do not reduce in
the kernel, so the Python `str.strip()` used by the app and the concrete
parsers used to instantiate `PandasEnv` are implemented over `List Char`. -/
/-- Drop leading whitespace characters. -/
def dropWS (l : List Char) : List Char := l.dropWhile Char.isWhitespace

/-- Python `str.strip()`: remove leading and trailing whitespace. -/
def pyStrip (s : String) : String :=
  String.mk ((dropWS ((dropWS s.data).reverse)).reverse)

/-- Split a character list on a separator character. -/
def splitChars (sep : Char) : List Char → List (List Char)
  | [] => [[]]
  | c :: cs =>
    let rest := splitChars sep cs
    if c = sep then [] :: rest
    else
      match rest with
      | [] => [[c]]
      | r :: rs => (c :: r) :: rs

/-- Read a nonempty all-digit character list as a numeral. -/
def digitsToNat : List Char → Option Nat
  | [] => none
  | l => l.foldl
      (fun acc c =>
        match acc with
        | none => none
        | some n => if c.isDigit then some (n * 10 + (c.toNat - 48)) else none)
      (some 0)

/-- A concrete stand-in for the external date parser: accepts `YYYY-MM-DD`.
The real `pd.to_datetime` accepts more formats; the theorems quantify over
an arbitrary `PandasEnv`, this instance only drives concrete examples. -/
def parseDateISO (s : String) : Option Date :=
  match splitChars '-' s.data with
  | [y, m, d] =>
    match digitsToNat y, digitsToNat m, digitsToNat d with
    | some yn, some mn, some dn =>
      if 1 ≤ mn ∧ mn ≤ 12 ∧ 1 ≤ dn ∧ dn ≤ 31 then some ⟨yn, mn, dn⟩ else none
    | _, _, _ => none
  | _ => none

/-- A concrete stand-in for `pd.to_numeric` on strings: unsigned decimal
numerals with an optional fraction part.  Only drives concrete examples. -/
def parseNumLit (s : String) : Option ℚ :=
  match splitChars '.' s.data with
  | [a] => (digitsToNat a).map (fun n => (n : ℚ))
  | [a, b] =>
    match digitsToNat a, digitsToNat b with
    | some an, some bn => some ((an : ℚ) + (bn : ℚ) / ((10 : ℚ) ^ b.length))
    | _, _ => none
  | _ => none

/-- Zeller's congruence: 0 = Saturday, 1 = Sunday, …, 6 = Friday. -/
def zeller (d : Date) : Nat :=
  let y := if d.month ≤ 2 then d.year - 1 else d.year
  let m := if d.month ≤ 2 then d.month + 12 else d.month
  (d.day + 13 * (m + 1) / 5 + y % 100 + y % 100 / 4 + y / 100 / 4 + 5 * (y / 100)) % 7

/-- Weekday name as `Timestamp.day_name()` returns it. -/
def zellerName (d : Date) : String :=
  match zeller d with
  | 0 => "Saturday"
  | 1 => "Sunday"
  | 2 => "Monday"
  | 3 => "Tuesday"
  | 4 => "Wednesday"
  | 5 => "Thursday"
  | _ => "Friday"

/-- The concrete `PandasEnv` used for example inputs. -/
def defaultEnv : PandasEnv where
  parseDate := parseDateISO
  numAsDate := fun _ => none
  parseNum := parseNumLit
  numOfDate := fun _ => none
  dayName := zellerName

/-! ## DataFrames -/
/-- A pandas `DataFrame`: named columns and rows of cells.  Well-formed
frames (`DataFrame.WF`) have every row as long as the column list. -/
structure DataFrame where
  cols : List String
  rows : List (List Value)
deriving DecidableEq, Repr

/-- Index of the first column with the given name. -/
def colIdx : List String → String → Option Nat
  | [], _ => none
  | x :: xs, c => if x = c then some 0 else (colIdx xs c).map (· + 1)

/-- Read the cell of column `c` in a row (missing column or short row reads
as missing — the callers below only read columns they know exist, except
`reindex`, for which missing-as-`NaN` is pandas behaviour). -/
def getCell (cols : List String) (r : List Value) (c : String) : Value :=
  match colIdx cols c with
  | some i => r.getD i Value.na
  | none => Value.na

/-- Write the cell of column `c` in a row; a new column lands at the end,
matching a pandas `df[c] = …` assignment on a frame lacking `c`. -/
def setCell (cols : List String) (r : List Value) (c : String) (v : Value) : List Value :=
  match colIdx cols c with
  | some i => r.set i v
  | none => r ++ [v]

/-- Column list after a `df[c] = …` assignment. -/
def colsAfterSet (cols : List String) (c : String) : List String :=
  if (colIdx cols c).isSome then cols else cols ++ [c]

/-- Column assignment `df[c] = vals` (vals listed row-by-row). -/
def setCol (df : DataFrame) (c : String) (vals : List Value) : DataFrame :=
  ⟨colsAfterSet df.cols c, List.zipWith (fun r v => setCell df.cols r c v) df.rows vals⟩

/-- The column `df[c]` as a list of cells. -/
def getCol (df : DataFrame) (c : String) : List Value :=
  df.rows.map (fun r => getCell df.cols r c)

/-- Reindexing `df.reindex(columns=newCols)`: exactly these columns in this order;
columns the frame lacks fill with missing. -/
def reindex (df : DataFrame) (newCols : List String) : DataFrame :=
  ⟨newCols, df.rows.map (fun r => newCols.map (fun c => getCell df.cols r c))⟩

/-- Every row has exactly one cell per column. -/
def DataFrame.WF (df : DataFrame) : Prop :=
  ∀ r ∈ df.rows, r.length = df.cols.length

instance (df : DataFrame) : Decidable df.WF := by
  unfold DataFrame.WF; infer_instance

/-! ## `load_data` (app.py lines 46-80) -/
/-- app.py line 46: the canonical on-disk schema. -/
def EXPECTED_COLUMNS : List String :=
  ["Date", "Provider", "Location", "Latitude", "Longitude", "Type", "kWh",
   "Total Cost", "Cost_per_kWh", "Month"]

/-- Lines 59-60: `if c not in df.columns: df[c] = pd.NA`. -/
def ensureCol (df : DataFrame) (c : String) : DataFrame :=
  if (colIdx df.cols c).isSome then df
  else setCol df c (df.rows.map (fun _ => Value.na))

/-- Line 64: `df["Date"] = pd.to_datetime(df["Date"], errors="coerce")`. -/
def stepDate (env : PandasEnv) (df : DataFrame) : DataFrame :=
  setCol df "Date" ((getCol df "Date").map (toDatetime env))

/-- Line 65: `df["Month"] = df["Date"].dt.to_period("M").astype(str)`. -/
def stepMonth (df : DataFrame) : DataFrame :=
  setCol df "Month" ((getCol df "Date").map monthValue)

/-- Line 66: `df["Day"] = df["Date"].dt.day_name()`. -/
def stepDay (env : PandasEnv) (df : DataFrame) : DataFrame :=
  setCol df "Day" ((getCol df "Date").map (dayValue env))

/-- Line 67: `df["Latitude"] = pd.to_numeric(df["Latitude"], errors="coerce")`. -/
def stepLat (env : PandasEnv) (df : DataFrame) : DataFrame :=
  setCol df "Latitude" ((getCol df "Latitude").map (toNumeric env))

/-- Line 68: `df["Longitude"] = pd.to_numeric(df["Longitude"], errors="coerce")`. -/
def stepLon (env : PandasEnv) (df : DataFrame) : DataFrame :=
  setCol df "Longitude" ((getCol df "Longitude").map (toNumeric env))

/-- Lines 62-68: the `if not df.empty:` type-processing block. -/
def typeBlock (env : PandasEnv) (df : DataFrame) : DataFrame :=
  if df.rows.isEmpty then df
  else stepLon env (stepLat env (stepDay env (stepMonth (stepDate env df))))

/-- Lines 72-74: `cols_to_use = EXPECTED_COLUMNS + ["Day"]` (the
`dict.fromkeys` de-duplication is the identity on these names). -/
def cols_to_use : List String := EXPECTED_COLUMNS ++ ["Day"]

/-- The body of the `try:` block of `load_data`, given the frame
`pd.read_csv` produced (lines 56-77). -/
def loadPipeline (env : PandasEnv) (df : DataFrame) : DataFrame :=
  reindex (typeBlock env (ensureCol (ensureCol df "Latitude") "Longitude")) cols_to_use

/-- Result of `load_data`: the returned frame, plus whether the
`except` branch reported a load error via `st.error`. -/
structure LoadResult where
  df : DataFrame
  errorShown : Bool
deriving DecidableEq, Repr

/-- Function `load_data()` (lines 54-80).  `raw = none` models `pd.read_csv` itself
failing (unreadable storage).  A non-empty frame without a `Date` column
makes `df["Date"]` raise `KeyError`; both exceptions land in the `except`
branch, which reports the error and returns an empty frame with exactly the
canonical columns. -/
def load_data (env : PandasEnv) (raw : Option DataFrame) : LoadResult :=
  match raw with
  | none => ⟨⟨EXPECTED_COLUMNS, []⟩, true⟩
  | some df =>
    if ¬df.rows.isEmpty ∧ ¬(colIdx df.cols "Date").isSome then ⟨⟨EXPECTED_COLUMNS, []⟩, true⟩
    else ⟨loadPipeline env df, false⟩

/-! ## Sidebar month filter (lines 104-117) -/
/-- The sidebar month filter: `"All"` keeps the frame; any other key keeps
exactly the rows whose `Month` cell equals the key
(`df[df["Month"] == selected_month]`). -/
def filter_by_month (df : DataFrame) (key : String) : DataFrame :=
  if key = "All" then df
  else ⟨df.cols, df.rows.filter (fun r => getCell df.cols r "Month" == Value.str key)⟩

/-! ## Aggregates (lines 241, 310-319) -/
/-- Read a datetime cell, `none` for anything else (incl. `NaT`). -/
def valAsDate : Value → Option Date
  | .date d => some d
  | _ => none

/-- A numeric cell's value; non-numbers contribute `0`, matching pandas
`sum`, which skips `NaN`. -/
def costOf : Value → ℚ
  | .num q => q
  | _ => 0

/-- Sum of `Total Cost` over the rows whose `Date` cell is the given date. -/
def daySum (cols : List String) (rows : List (List Value)) (d : Date) : ℚ :=
  (rows.filter (fun r => getCell cols r "Date" == Value.date d)).foldr
    (fun r acc => costOf (getCell cols r "Total Cost") + acc) 0

/-- Line 241: `filtered_df.groupby(filtered_df["Date"].dt.date)["Total Cost"].sum()`.
`groupby` drops `NaT` keys, so only real dates appear.  Keys are listed in
first-appearance order; pandas sorts them, but no claim here depends on the
key order of this view. -/
def dailySpend (df : DataFrame) : List (Date × ℚ) :=
  let keys := (df.rows.filterMap (fun r => valAsDate (getCell df.cols r "Date"))).dedup
  keys.map (fun d => (d, daySum df.cols df.rows d))

/-- Line 311 row predicate:
`Location.notna() & (Location.str.strip() != "")`.  A missing cell fails
`notna`; a string cell must strip to non-empty; a non-string scalar passes
(its `.str.strip()` is `NaN` and `NaN != ""` holds element-wise). -/
def namedLocPred (cols : List String) (r : List Value) : Bool :=
  match getCell cols r "Location" with
  | .na => false
  | .str s => !(pyStrip s = "")
  | _ => true

/-- The frame `named_loc_df` (line 311). -/
def namedRows (df : DataFrame) : List (List Value) :=
  df.rows.filter (namedLocPred df.cols)

/-- Sum of `Total Cost` over rows with a given `Location` key. -/
def locSum (cols : List String) (rows : List (List Value)) (k : Value) : ℚ :=
  rows.foldr
    (fun r acc =>
      if getCell cols r "Location" == k then costOf (getCell cols r "Total Cost") + acc
      else acc) 0

/-- Descending order on grouped `(Location, summed cost)` pairs:
`sort_values(ascending=False)` on the sums. -/
def leBySum (a b : Value × ℚ) : Prop := b.2 ≤ a.2

instance : DecidableRel leBySum := fun a b => inferInstanceAs (Decidable (b.2 ≤ a.2))

instance : IsTotal (Value × ℚ) leBySum := ⟨fun a b => le_total b.2 a.2⟩

instance : IsTrans (Value × ℚ) leBySum := ⟨fun _ _ _ h1 h2 => le_trans h2 h1⟩

/-- Lines 316-319: group `named_loc_df` by `Location`, sum `Total Cost`,
sort descending by the sum, keep the first 5.  Keys are grouped in
first-appearance order and the sort is a stable insertion sort; the true
code sorts keys alphabetically and then applies an unstable quicksort, so
the two agree up to the ordering of tied sums, which the spec leaves
unspecified. -/
def top_locations (df : DataFrame) : List (Value × ℚ) :=
  (((((namedRows df).map (fun r => getCell df.cols r "Location")).dedup).map
      (fun k => (k, locSum df.cols (namedRows df) k))).insertionSort leBySum).take 5

/-! ## Log-session form (lines 133-215) -/
/-- Line 134: the provider choices offered by the selectbox. -/
def providers : List String :=
  ["Gentari", "JomCharge", "chargEV", "Shell Recharge",
   "TNB Electron", "ChargeSini", "Tesla Supercharger",
   "DC Handal", "Home", "Other"]

/-- The widget values a form submission delivers to the handler. -/
structure FormInput where
  selectedProvider : String
  otherProvider : String
  dateVal : Date
  locationName : String
  outputType : String
  kwhVal : ℚ
  totalCost : ℚ
  latVal : ℚ
  lonVal : ℚ
deriving DecidableEq, Repr

/-- Constraints the widgets themselves enforce before a submission can
exist: `kwh_val` has `min_value=0.1` (line 154), `total_cost` has
`min_value=0.0` (line 156), and the provider selectbox only offers
`providers` (line 142). -/
def widgetValid (f : FormInput) : Prop :=
  1/10 ≤ f.kwhVal ∧ 0 ≤ f.totalCost ∧ f.selectedProvider ∈ providers

/-- Line 169: `other_provider.strip() if selected_provider == "Other" else
selected_provider`. -/
def providerOf (f : FormInput) : String :=
  if f.selectedProvider = "Other" then pyStrip f.otherProvider else f.selectedProvider

/-- Python `round(x, 3)`: round half to even at three decimal places. -/
def roundHalfEven (q : ℚ) : ℤ :=
  if Int.fract q < 1/2 then ⌊q⌋
  else if 1/2 < Int.fract q then ⌊q⌋ + 1
  else if ⌊q⌋ % 2 = 0 then ⌊q⌋ else ⌊q⌋ + 1

/-- Python `round(x, 3)` at three decimal places. -/
def round3 (q : ℚ) : ℚ := (roundHalfEven (q * 1000) : ℚ) / 1000

/-- Line 194: `round(total_cost / kwh_val, 3) if kwh_val > 0 else 0`. -/
def compute_cost_per_kwh (total_cost kwh_val : ℚ) : ℚ :=
  if 0 < kwh_val then round3 (total_cost / kwh_val) else 0

/-- Outcome of pressing "Save Session": either a validation error with the
message shown (nothing appended to the CSV), or the row appended — in
`EXPECTED_COLUMNS` order, line 211 — together with whether the
could-not-find-location warning was shown. -/
inductive SubmitResult where
  | rejected : String → SubmitResult
  | saved : List Value → Bool → SubmitResult
deriving DecidableEq, Repr

/-- Lines 174-191, the auto-geocoding block: the `(final_lat, final_lon)`
pair that will be stored, plus whether the could-not-find warning was
shown.  `geo` is what `get_coordinates` returns: `none` when geopy found
nothing or raised, otherwise the pair.  Note line 181 (`if found_lat:`)
tests the found latitude for Python truthiness, so a successful lookup
whose latitude is exactly `0.0` takes the not-found branch. -/
def finalCoords (f : FormInput) (geo : Option (ℚ × ℚ)) : Value × Value × Bool :=
  if (f.latVal = 0 ∨ f.lonVal = 0) ∧ ¬(pyStrip f.locationName = "") then
    match geo with
    | some (la, lo) =>
      if ¬(la = 0) then (.num la, .num lo, false)
      else (.na, .na, true)
    | none => (.na, .na, true)
  else if f.latVal = 0 ∧ f.lonVal = 0 then (.na, .na, false)
  else (.num f.latVal, .num f.lonVal, false)

/-- Lines 197-211: the `new_data` row, already in `EXPECTED_COLUMNS` order
(line 211 selects that order before appending). -/
def savedRow (f : FormInput) (geo : Option (ℚ × ℚ)) : List Value :=
  [.date f.dateVal, .str (providerOf f), .str (pyStrip f.locationName),
   (finalCoords f geo).1, (finalCoords f geo).2.1, .str f.outputType,
   .num f.kwhVal, .num f.totalCost,
   .num (compute_cost_per_kwh f.totalCost f.kwhVal), .str (monthFmt f.dateVal)]

/-- Lines 168-215: the submit handler. -/
def logSubmit (f : FormInput) (geo : Option (ℚ × ℚ)) : SubmitResult :=
  if providerOf f = "" then .rejected "Please specify provider name."
  else .saved (savedRow f geo) (finalCoords f geo).2.2

/-! ## Bulk edit-and-resave (lines 349-363) -/
/-- Lines 352-355, the per-row lambda:
`round(x["Total Cost"] / x["kWh"], 3) if pd.notnull(x["kWh"]) and x["kWh"] > 0 else 0`.
A missing `Total Cost` with positive `kWh` propagates `NaN` (`round` keeps
it); the editor's numeric columns cannot hold non-numeric scalars, so the
string/datetime cases of `kWh` are unreachable and fold into the guard. -/
def bulk_cost_cell (cost kwh : Value) : Value :=
  match kwh with
  | .num k =>
    if 0 < k then
      match cost with
      | .num c => .num (round3 (c / k))
      | _ => .na
    else .num 0
  | _ => .num 0

/-- Does `pd.to_datetime(cell)` **without** `errors="coerce"` raise?  (Line
351 uses the raising form; `NaT`/datetimes pass through.) -/
def dateCellRaises (env : PandasEnv) : Value → Bool
  | .str s => (env.parseDate s).isNone
  | .num q => (env.numAsDate q).isNone
  | _ => false

/-- Lines 352-355: `edited_df["Cost_per_kWh"] = edited_df.apply(lambda x: …, axis=1)`. -/
def bulkCpkStep (df : DataFrame) : DataFrame :=
  setCol df "Cost_per_kWh"
    (df.rows.map (fun r =>
      bulk_cost_cell (getCell df.cols r "Total Cost") (getCell df.cols r "kWh")))

/-- Lines 349-363: the "Save Changes to CSV" handler.  `none` models the
`except` branch (error shown, file untouched): an unparseable `Date` cell
(line 351 calls `pd.to_datetime` **without** `errors="coerce"`), or
`edited_df[EXPECTED_COLUMNS]` raising because a canonical column is
missing.  On the non-raising inputs the coercing `stepDate` agrees with
the raising form, so it is reused here.  Otherwise the fully recomputed
frame is written whole. -/
def bulkFrame (env : PandasEnv) (edited : DataFrame) : DataFrame :=
  stepMonth (bulkCpkStep (stepDate env edited))

def bulkSave (env : PandasEnv) (edited : DataFrame) : Option DataFrame :=
  if edited.rows.any (fun r => dateCellRaises env (getCell edited.cols r "Date")) then none
  else
    if EXPECTED_COLUMNS.all (fun c => (colIdx (bulkFrame env edited).cols c).isSome) then
      some (reindex (bulkFrame env edited) EXPECTED_COLUMNS)
    else none

/-- Row-level effect of `ensureCol`. -/
def ensureRow (cols : List String) (c : String) (r : List Value) : List Value :=
  if (colIdx cols c).isSome then r else r ++ [Value.na]

/-- What one cell of the `load_data` output is, as a function of the raw
row it came from (raw columns `cols`). -/
def normCell (env : PandasEnv) (cols : List String) (r : List Value) (c : String) : Value :=
  if c = "Date" then toDatetime env (getCell cols r "Date")
  else if c = "Month" then monthValue (toDatetime env (getCell cols r "Date"))
  else if c = "Day" then dayValue env (toDatetime env (getCell cols r "Date"))
  else if c = "Latitude" then toNumeric env (getCell cols r "Latitude")
  else if c = "Longitude" then toNumeric env (getCell cols r "Longitude")
  else getCell cols r c

def dfC3 : DataFrame := ⟨["Date"], []⟩

def dfC6 : DataFrame :=
  ⟨["Month", "Provider"],
   [[Value.str "2024-03", Value.str "Gentari"], [Value.str "2024-04", Value.str "Home"]]⟩

def fC7 : FormInput :=
  ⟨"Other", " ", ⟨2024, 3, 1⟩, "KLCC", "AC", 1/10, 0, 0, 0⟩

def fC1 : FormInput := ⟨"Gentari", "", ⟨2024, 3, 1⟩, "KLCC", "DC", 20, 30, 3, 101⟩

def rowC1 : List Value :=
  [Value.date ⟨2024, 3, 1⟩, Value.str "Gentari", Value.str "KLCC", Value.num 3, Value.num 101,
   Value.str "DC", Value.num 20, Value.num 30, Value.num (3/2), Value.str "2024-03"]

def dfC1b : DataFrame :=
  ⟨EXPECTED_COLUMNS,
   [[Value.str "2024-03-01", Value.str "Home", Value.str "", Value.na, Value.na,
     Value.str "AC", Value.num 0, Value.num 30, Value.num 999, Value.str "x"]]⟩

def outC1b : DataFrame :=
  ⟨EXPECTED_COLUMNS,
   [[Value.date ⟨2024, 3, 1⟩, Value.str "Home", Value.str "", Value.na, Value.na,
     Value.str "AC", Value.num 0, Value.num 30, Value.num 0, Value.str "2024-03"]]⟩

def dfC2 : DataFrame :=
  ⟨["Date", "Latitude", "Longitude"], [[Value.str "2024-03-01", Value.num 3, Value.str "abc"]]⟩

def fC2w : FormInput := ⟨"Gentari", "", ⟨2024, 3, 1⟩, "", "AC", 10, 15, 0, 0⟩

def rowC2w : List Value :=
  [Value.date ⟨2024, 3, 1⟩, Value.str "Gentari", Value.str "", Value.na, Value.na,
   Value.str "AC", Value.num 10, Value.num 15, Value.num (3/2), Value.str "2024-03"]

def fC10 : FormInput := ⟨"Gentari", "", ⟨2024, 3, 1⟩, "KLCC", "DC", 20, 30, 0, 5⟩

def rowC10 : List Value :=
  [Value.date ⟨2024, 3, 1⟩, Value.str "Gentari", Value.str "KLCC", Value.na, Value.na,
   Value.str "DC", Value.num 20, Value.num 30, Value.num (3/2), Value.str "2024-03"]

def rowC10w : List Value :=
  [Value.date ⟨2024, 3, 1⟩, Value.str "Gentari", Value.str "KLCC", Value.num 3, Value.num 101,
   Value.str "DC", Value.num 20, Value.num 30, Value.num (3/2), Value.str "2024-03"]

/-- Line 110: `df["Month"].dropna().unique().tolist()`, the keys the month
selectbox offers (string cells survive `dropna`; in a normalized frame all
`Month` cells are strings). -/
def month_options (df : DataFrame) : List String :=
  ((getCol df "Month").filterMap
    (fun v => match v with | Value.str s => some s | _ => none)).dedup

def dfC4 : DataFrame :=
  ⟨["Date", "Total Cost"],
   [[Value.str "2024-03-01", Value.num 30], [Value.str "bad-date", Value.num 10]]⟩

def dfC5x : DataFrame := ⟨["Provider"], [[Value.str "Gentari"]]⟩

def dfC5w : DataFrame :=
  ⟨["Date", "Provider"], [[Value.str "2024-03-01", Value.str "Gentari"]]⟩

def dfC9 : DataFrame :=
  ⟨["Location", "Total Cost"],
   [[Value.str "KLCC", Value.num 30], [Value.str "  ", Value.num 99],
    [Value.str "KLCC", Value.num 20], [Value.str "Ipoh", Value.num 70]]⟩

/-! ## Basic lemmas about rows and column lookup -/
theorem zipWith_map_self {α β γ : Type} (h : α → β → γ) (g : α → β) :
    ∀ l : List α, List.zipWith h l (l.map g) = l.map (fun a => h a (g a)) := by
  intro l
  induction l with
  | nil => rfl
  | cons x xs ih => simp [List.zipWith, ih]

theorem getD_set_self {r : List Value} {i : Nat} (h : i < r.length) (v d : Value) :
    (r.set i v).getD i d = v := by
  induction r generalizing i with
  | nil => simp at h
  | cons x xs ih =>
    cases i with
    | zero => rfl
    | succ j => exact ih (Nat.lt_of_succ_lt_succ h)

theorem getD_set_ne {i j : Nat} (h : i ≠ j) (r : List Value) (v d : Value) :
    (r.set i v).getD j d = r.getD j d := by
  induction r generalizing i j with
  | nil => rfl
  | cons x xs ih =>
    cases i with
    | zero =>
      cases j with
      | zero => exact absurd rfl h
      | succ _ => rfl
    | succ i0 =>
      cases j with
      | zero => rfl
      | succ j0 => exact ih (fun hc => h (congrArg Nat.succ hc))

theorem getD_append_left {r : List Value} {j : Nat} (h : j < r.length) (t : List Value) (d : Value) :
    (r ++ t).getD j d = r.getD j d := by
  induction r generalizing j with
  | nil => simp at h
  | cons x xs ih =>
    cases j with
    | zero => rfl
    | succ j0 => exact ih (Nat.lt_of_succ_lt_succ h)

theorem getD_append_self (r : List Value) (v d : Value) :
    (r ++ [v]).getD r.length d = v := by
  induction r with
  | nil => rfl
  | cons x xs ih => exact ih

theorem colIdx_lt {cols : List String} {c : String} {i : Nat} (h : colIdx cols c = some i) :
    i < cols.length := by
  induction cols generalizing i with
  | nil => simp [colIdx] at h
  | cons x xs ih =>
    by_cases hx : x = c
    · simp [colIdx, hx] at h
      simp only [List.length_cons]
      omega
    · simp [colIdx, hx] at h
      obtain ⟨j, hj, rfl⟩ := h
      exact Nat.succ_lt_succ (ih hj)

theorem colIdx_getD {cols : List String} {c : String} {i : Nat} (h : colIdx cols c = some i) :
    cols.getD i "" = c := by
  induction cols generalizing i with
  | nil => simp [colIdx] at h
  | cons x xs ih =>
    by_cases hx : x = c
    · simp [colIdx, hx] at h
      subst h
      simpa using hx
    · simp [colIdx, hx] at h
      obtain ⟨j, hj, rfl⟩ := h
      simpa using ih hj

theorem colIdx_inj {cols : List String} {c x : String} {i j : Nat} (hc : colIdx cols c = some i)
    (hx : colIdx cols x = some j) (hne : x ≠ c) : j ≠ i := by
  intro he
  exact hne ((he ▸ colIdx_getD hx) ▸ colIdx_getD hc)

theorem colIdx_append_isSome {cols : List String} {c : String} {i : Nat}
    (h : colIdx cols c = some i) (l : List String) : colIdx (cols ++ l) c = some i := by
  induction cols generalizing i with
  | nil => simp [colIdx] at h
  | cons x xs ih =>
    by_cases hx : x = c
    · simp [colIdx, hx] at h ⊢
      omega
    · simp [colIdx, hx] at h ⊢
      obtain ⟨j, hj, rfl⟩ := h
      exact ⟨j, ih hj, rfl⟩

theorem colIdx_append_none {cols : List String} {c : String} (h : colIdx cols c = none)
    (x : String) :
    colIdx (cols ++ [x]) c = if x = c then some cols.length else none := by
  induction cols with
  | nil => simp [colIdx]
  | cons y ys ih =>
    by_cases hy : y = c
    · simp [colIdx, hy] at h
    · simp [colIdx, hy] at h ⊢
      rw [ih h]
      by_cases hx : x = c <;> simp [hx]

theorem getCell_of_idx {cols : List String} {x : String} {i : Nat}
    (h : colIdx cols x = some i) (r : List Value) : getCell cols r x = r.getD i Value.na := by
  simp [getCell, h]

theorem getCell_of_none {cols : List String} {x : String} (h : colIdx cols x = none)
    (r : List Value) : getCell cols r x = Value.na := by
  simp [getCell, h]

theorem set_getD_self {r : List Value} {i : Nat} (h : i < r.length) (d : Value) :
    r.set i (r.getD i d) = r := by
  induction r generalizing i with
  | nil => rfl
  | cons x xs ih =>
    cases i with
    | zero => rfl
    | succ j => exact congrArg (x :: ·) (ih (Nat.lt_of_succ_lt_succ h))

theorem length_setCell {cols : List String} {r : List Value} (hr : r.length = cols.length)
    (c : String) (v : Value) : (setCell cols r c v).length = (colsAfterSet cols c).length := by
  unfold setCell colsAfterSet
  cases h : colIdx cols c with
  | none => simp [hr]
  | some i => simp [h, hr]

/-- Reading back after a cell write: the written name reads the new value,
any other name reads the untouched original cell. -/
theorem getCell_setCell {cols : List String} {r : List Value} (hr : r.length = cols.length)
    (c : String) (v : Value) (x : String) :
    getCell (colsAfterSet cols c) (setCell cols r c v) x =
      if x = c then v else getCell cols r x := by
  unfold setCell colsAfterSet
  cases h : colIdx cols c with
  | some i =>
    simp only [h, Option.isSome_some, if_true]
    by_cases hx : x = c
    · subst hx
      rw [if_pos rfl, getCell_of_idx h, getD_set_self (hr ▸ colIdx_lt h) v]
    · rw [if_neg hx]
      cases hx2 : colIdx cols x with
      | none => rw [getCell_of_none hx2, getCell_of_none hx2]
      | some j =>
        rw [getCell_of_idx hx2, getCell_of_idx hx2,
          getD_set_ne (Ne.symm (colIdx_inj h hx2 hx)) r v Value.na]
  | none =>
    simp only [h, Option.isSome_none, Bool.false_eq_true, if_false]
    by_cases hx : x = c
    · subst hx
      have hidx : colIdx (cols ++ [x]) x = some cols.length := by
        rw [colIdx_append_none h x, if_pos rfl]
      rw [if_pos rfl, getCell_of_idx hidx, ← hr, getD_append_self]
    · rw [if_neg hx]
      cases hx2 : colIdx cols x with
      | none =>
        have hidx : colIdx (cols ++ [c]) x = none := by
          rw [colIdx_append_none hx2 c, if_neg (fun hc => hx hc.symm)]
        rw [getCell_of_none hidx, getCell_of_none hx2]
      | some j =>
        rw [getCell_of_idx (colIdx_append_isSome hx2 [c]), getCell_of_idx hx2,
          getD_append_left (hr ▸ colIdx_lt hx2)]

theorem setCol_getCol_map (df : DataFrame) (c c' : String) (f : Value → Value) :
    setCol df c ((getCol df c').map f) =
      ⟨colsAfterSet df.cols c,
       df.rows.map (fun r => setCell df.cols r c (f (getCell df.cols r c')))⟩ := by
  unfold setCol getCol
  rw [List.map_map, zipWith_map_self]
  rfl

/-- On well-formed frames `ensureCol` is the same as rewriting the column
with its own (possibly all-missing) values. -/
theorem ensureCol_eq {df : DataFrame} (hwf : df.WF) (c : String) :
    ensureCol df c = setCol df c ((getCol df c).map (fun v => v)) := by
  rw [setCol_getCol_map]
  unfold ensureCol
  cases h : colIdx df.cols c with
  | some i =>
    simp only [h, Option.isSome_some, if_true]
    cases df with
    | mk cols rows =>
      simp only [DataFrame.mk.injEq]
      refine ⟨by simp [colsAfterSet, h], ?_⟩
      conv_lhs => rw [← List.map_id rows]
      refine List.map_congr_left (fun r hrm => ?_)
      have hlen : r.length = cols.length := hwf r hrm
      simp only [id, setCell, h]
      rw [getCell_of_idx h, set_getD_self (hlen ▸ colIdx_lt h)]
  | none =>
    simp only [h, Option.isSome_none, Bool.false_eq_true, if_false]
    unfold setCol
    rw [zipWith_map_self]
    simp only [DataFrame.mk.injEq, true_and]
    exact List.map_congr_left (fun r _ => by rw [getCell_of_none h])

theorem ensureCol_char (df : DataFrame) (c : String) :
    ensureCol df c = ⟨colsAfterSet df.cols c, df.rows.map (ensureRow df.cols c)⟩ := by
  unfold ensureCol ensureRow colsAfterSet
  cases h : colIdx df.cols c with
  | some i =>
    simp [h]
  | none =>
    simp only [h, Option.isSome_none, Bool.false_eq_true, if_false]
    unfold setCol
    rw [zipWith_map_self]
    simp only [colsAfterSet, h, Option.isSome_none, Bool.false_eq_true, if_false,
      DataFrame.mk.injEq, true_and]
    exact List.map_congr_left (fun r _ => by simp [setCell, h])

theorem length_ensureRow {cols : List String} {r : List Value} (hr : r.length = cols.length)
    (c : String) : (ensureRow cols c r).length = (colsAfterSet cols c).length := by
  unfold ensureRow colsAfterSet
  cases h : colIdx cols c with
  | some i => simp [hr]
  | none => simp [hr]

theorem getCell_ensureRow {cols : List String} {r : List Value} (hr : r.length = cols.length)
    (c : String) (x : String) :
    getCell (colsAfterSet cols c) (ensureRow cols c r) x = getCell cols r x := by
  unfold ensureRow colsAfterSet
  cases h : colIdx cols c with
  | some i => simp [h]
  | none =>
    simp only [h, Option.isSome_none, Bool.false_eq_true, if_false]
    by_cases hx : x = c
    · subst hx
      have hidx : colIdx (cols ++ [x]) x = some cols.length := by
        rw [colIdx_append_none h x, if_pos rfl]
      rw [getCell_of_idx hidx, getCell_of_none h, ← hr, getD_append_self]
    · cases hx2 : colIdx cols x with
      | none =>
        have hidx : colIdx (cols ++ [c]) x = none := by
          rw [colIdx_append_none hx2 c, if_neg (fun hc => hx hc.symm)]
        rw [getCell_of_none hidx, getCell_of_none hx2]
      | some j =>
        rw [getCell_of_idx (colIdx_append_isSome hx2 [c]), getCell_of_idx hx2,
          getD_append_left (hr ▸ colIdx_lt hx2)]

theorem setCol_getCol_map_mk (cols : List String) (rows : List (List Value)) (c cp : String)
    (f : Value → Value) :
    setCol ⟨cols, rows⟩ c ((getCol ⟨cols, rows⟩ cp).map f) =
      ⟨colsAfterSet cols c, rows.map (fun r => setCell cols r c (f (getCell cols r cp)))⟩ :=
  setCol_getCol_map ..

theorem loadPipeline_char (env : PandasEnv) (df : DataFrame) (hwf : df.WF) :
    loadPipeline env df =
      ⟨cols_to_use, df.rows.map (fun r => cols_to_use.map (normCell env df.cols r))⟩ := by
  obtain ⟨cols, rows⟩ := df
  unfold loadPipeline
  rw [ensureCol_char, ensureCol_char]
  simp only [List.map_map]
  by_cases hrows : rows = []
  · subst hrows
    simp [typeBlock, reindex]
  · have hne : ((rows.map (ensureRow (colsAfterSet cols "Latitude") "Longitude" ∘
        ensureRow cols "Latitude")).isEmpty) = false := by
      cases rows with
      | nil => exact absurd rfl hrows
      | cons hd tl => rfl
    unfold typeBlock
    rw [hne]
    simp only [Bool.false_eq_true, if_false]
    unfold stepDate stepMonth stepDay stepLat stepLon
    simp only [setCol_getCol_map_mk, List.map_map, reindex, Function.comp]
    refine congrArg (DataFrame.mk cols_to_use) ?_
    refine List.map_congr_left (fun r hrm => ?_)
    have hr0 : r.length = cols.length := hwf r hrm
    refine List.map_congr_left (fun c hc => ?_)
    set C1 := colsAfterSet cols "Latitude" with hC1_def
    set rA := ensureRow cols "Latitude" r with hrA_def
    set C2 := colsAfterSet C1 "Longitude" with hC2_def
    set rB := ensureRow C1 "Longitude" rA with hrB_def
    set C3 := colsAfterSet C2 "Date" with hC3_def
    set v3 := toDatetime env (getCell C2 rB "Date") with hv3_def
    set r3 := setCell C2 rB "Date" v3 with hr3_def
    set C4 := colsAfterSet C3 "Month" with hC4_def
    set v4 := monthValue (getCell C3 r3 "Date") with hv4_def
    set r4 := setCell C3 r3 "Month" v4 with hr4_def
    set C5 := colsAfterSet C4 "Day" with hC5_def
    set v5 := dayValue env (getCell C4 r4 "Date") with hv5_def
    set r5 := setCell C4 r4 "Day" v5 with hr5_def
    set C6 := colsAfterSet C5 "Latitude" with hC6_def
    set v6 := toNumeric env (getCell C5 r5 "Latitude") with hv6_def
    set r6 := setCell C5 r5 "Latitude" v6 with hr6_def
    set C7 := colsAfterSet C6 "Longitude" with hC7_def
    set v7 := toNumeric env (getCell C6 r6 "Longitude") with hv7_def
    set r7 := setCell C6 r6 "Longitude" v7 with hr7_def
    have hlA : rA.length = C1.length := length_ensureRow hr0 _
    have hlB : rB.length = C2.length := length_ensureRow hlA _
    have hl3 : r3.length = C3.length := length_setCell hlB _ _
    have hl4 : r4.length = C4.length := length_setCell hl3 _ _
    have hl5 : r5.length = C5.length := length_setCell hl4 _ _
    have hl6 : r6.length = C6.length := length_setCell hl5 _ _
    have gB : ∀ x, getCell C2 rB x = getCell cols r x := fun x =>
      (getCell_ensureRow hlA "Longitude" x).trans (getCell_ensureRow hr0 "Latitude" x)
    have g3 : ∀ x, getCell C3 r3 x =
        if x = "Date" then toDatetime env (getCell cols r "Date") else getCell cols r x := by
      intro x
      rw [hr3_def, hC3_def, getCell_setCell hlB, hv3_def, gB, gB]
    have g4 : ∀ x, getCell C4 r4 x =
        if x = "Month" then monthValue (toDatetime env (getCell cols r "Date"))
        else if x = "Date" then toDatetime env (getCell cols r "Date")
        else getCell cols r x := by
      intro x
      rw [hr4_def, hC4_def, getCell_setCell hl3, hv4_def, g3, g3]
      simp
    have g5 : ∀ x, getCell C5 r5 x =
        if x = "Day" then dayValue env (toDatetime env (getCell cols r "Date"))
        else if x = "Month" then monthValue (toDatetime env (getCell cols r "Date"))
        else if x = "Date" then toDatetime env (getCell cols r "Date")
        else getCell cols r x := by
      intro x
      rw [hr5_def, hC5_def, getCell_setCell hl4, hv5_def, g4, g4]
      simp
    have g6 : ∀ x, getCell C6 r6 x =
        if x = "Latitude" then toNumeric env (getCell cols r "Latitude")
        else if x = "Day" then dayValue env (toDatetime env (getCell cols r "Date"))
        else if x = "Month" then monthValue (toDatetime env (getCell cols r "Date"))
        else if x = "Date" then toDatetime env (getCell cols r "Date")
        else getCell cols r x := by
      intro x
      rw [hr6_def, hC6_def, getCell_setCell hl5, hv6_def, g5, g5]
      simp
    have g7 : ∀ x, getCell C7 r7 x =
        if x = "Longitude" then toNumeric env (getCell cols r "Longitude")
        else if x = "Latitude" then toNumeric env (getCell cols r "Latitude")
        else if x = "Day" then dayValue env (toDatetime env (getCell cols r "Date"))
        else if x = "Month" then monthValue (toDatetime env (getCell cols r "Date"))
        else if x = "Date" then toDatetime env (getCell cols r "Date")
        else getCell cols r x := by
      intro x
      rw [hr7_def, hC7_def, getCell_setCell hl6, hv7_def, g6, g6]
      simp
    show getCell C7 r7 c = normCell env cols r c
    rw [g7 c]
    unfold normCell
    by_cases h1 : c = "Date"
    · simp [h1]
    by_cases h2 : c = "Month"
    · simp [h2]
    by_cases h3 : c = "Day"
    · simp [h3]
    by_cases h4 : c = "Latitude"
    · simp [h4]
    by_cases h5 : c = "Longitude"
    · simp [h5]
    simp [h1, h2, h3, h4, h5]

theorem getD_map {α β : Type} (f : α → β) {l : List α} {i : Nat} (h : i < l.length)
    (d : β) (d0 : α) : (l.map f).getD i d = f (l.getD i d0) := by
  induction l generalizing i with
  | nil => simp at h
  | cons x xs ih =>
    cases i with
    | zero => rfl
    | succ j => exact ih (Nat.lt_of_succ_lt_succ h)

theorem getCell_map_target {T : List String} {c : String} {i : Nat}
    (h : colIdx T c = some i) (f : String → Value) : getCell T (T.map f) c = f c := by
  rw [getCell_of_idx h, getD_map f (colIdx_lt h) Value.na "", colIdx_getD h]

theorem setCol_rows_map (df : DataFrame) (c : String) (g : List Value → Value) :
    setCol df c (df.rows.map (fun r => g r)) =
      ⟨colsAfterSet df.cols c, df.rows.map (fun r => setCell df.cols r c (g r))⟩ := by
  unfold setCol
  rw [zipWith_map_self]

theorem toDatetime_idem (env : PandasEnv) (v : Value) :
    toDatetime env (toDatetime env v) = toDatetime env v := by
  cases v with
  | na => rfl
  | date d => rfl
  | str s => cases h : env.parseDate s <;> simp [toDatetime, h]
  | num q => cases h : env.numAsDate q <;> simp [toDatetime, h]

theorem toNumeric_idem (env : PandasEnv) (v : Value) :
    toNumeric env (toNumeric env v) = toNumeric env v := by
  cases v with
  | na => rfl
  | num q => rfl
  | str s => cases h : env.parseNum s <;> simp [toNumeric, h]
  | date d => cases h : env.numOfDate d <;> simp [toNumeric, h]

theorem load_data_some (env : PandasEnv) (df : DataFrame) :
    load_data env (some df) =
      if ¬df.rows.isEmpty ∧ ¬(colIdx df.cols "Date").isSome
      then ⟨⟨EXPECTED_COLUMNS, []⟩, true⟩
      else ⟨loadPipeline env df, false⟩ := rfl

/-- Successful loads (`pd.read_csv` worked and `df["Date"]` did not raise)
normalize every row cell-wise by `normCell` and reindex to `cols_to_use`. -/
theorem load_data_success (env : PandasEnv) (df : DataFrame) (hwf : df.WF)
    (hok : (colIdx df.cols "Date").isSome ∨ df.rows = []) :
    load_data env (some df) =
      ⟨⟨cols_to_use, df.rows.map (fun r => cols_to_use.map (normCell env df.cols r))⟩, false⟩ := by
  rw [load_data_some, if_neg, loadPipeline_char env df hwf]
  rcases hok with h | h
  · intro hc
    exact absurd h hc.2
  · intro hc
    rw [h] at hc
    exact absurd rfl hc.1

/-- C3 (counterexample): a successful load returns eleven columns — the
canonical ten plus the derived `Day` — so the output column set is not
exactly the canonical schema. -/
theorem C3_columns_counterexample :
    (load_data defaultEnv (some dfC3)).df.cols = EXPECTED_COLUMNS ++ ["Day"] ∧
    (load_data defaultEnv (some dfC3)).df.cols ≠ EXPECTED_COLUMNS := by decide

/-- C3 (amended): every successful load returns exactly the canonical ten
columns in canonical order followed by the derived `Day` column; only the
failure fallback returns exactly the canonical ten. -/
theorem C3_columns_amended (env : PandasEnv) (raw : Option DataFrame) :
    (load_data env raw).df.cols = EXPECTED_COLUMNS ++ ["Day"] ∨
      ((load_data env raw).errorShown = true ∧ (load_data env raw).df.cols = EXPECTED_COLUMNS) := by
  match raw with
  | none => exact Or.inr ⟨rfl, rfl⟩
  | some df =>
    rw [load_data_some]
    by_cases h : ¬df.rows.isEmpty = true ∧ ¬(colIdx df.cols "Date").isSome = true
    · rw [if_pos h]
      exact Or.inr ⟨rfl, rfl⟩
    · rw [if_neg h]
      exact Or.inl rfl

/-- C8: an unreadable backing file (`pd.read_csv` raising), and likewise a
non-empty frame without a `Date` column (`df["Date"]` raising `KeyError`),
both land in the `except` branch: the error is reported via `st.error` and
an empty frame with exactly the canonical columns is returned — no fault
escapes `load_data`. -/
theorem C8_missing_storage (env : PandasEnv) :
    load_data env none = ⟨⟨EXPECTED_COLUMNS, []⟩, true⟩ ∧
    (∀ df : DataFrame, df.rows ≠ [] → colIdx df.cols "Date" = none →
      load_data env (some df) = ⟨⟨EXPECTED_COLUMNS, []⟩, true⟩) := by
  refine ⟨rfl, fun df hne hdate => ?_⟩
  rw [load_data_some, if_pos]
  constructor
  · simp [List.isEmpty_iff, hne]
  · simp [hdate]

/-- C8 (witness): the reported-error fallback at a concrete structurally
broken frame (one row, no `Date` column). -/
theorem C8_missing_storage_witness :
    load_data defaultEnv (some ⟨["Provider"], [[Value.str "Gentari"]]⟩) =
      ⟨⟨EXPECTED_COLUMNS, []⟩, true⟩ :=
  (C8_missing_storage defaultEnv).2 ⟨["Provider"], [[Value.str "Gentari"]]⟩
    (by decide) (by decide)

/-- C6: filtering by month with key `"All"` is the identity on the frame;
for any other key the result keeps its columns and contains exactly the
rows whose `Month` cell is the string equal to the key — exact match, no
partial or prefix matching, unmatched rows silently dropped. -/
theorem C6_month_filter (df : DataFrame) (key : String) :
    filter_by_month df "All" = df ∧
    (key ≠ "All" →
      (∀ r ∈ (filter_by_month df key).rows,
        r ∈ df.rows ∧ getCell df.cols r "Month" = Value.str key) ∧
      (∀ r ∈ df.rows, getCell df.cols r "Month" = Value.str key →
        r ∈ (filter_by_month df key).rows) ∧
      (filter_by_month df key).cols = df.cols) := by
  refine ⟨by simp [filter_by_month], fun hkey => ?_⟩
  unfold filter_by_month
  rw [if_neg hkey]
  refine ⟨fun r hr => ?_, fun r hr hm => ?_, rfl⟩
  · have h := List.mem_filter.mp hr
    exact ⟨h.1, by simpa using h.2⟩
  · exact List.mem_filter.mpr ⟨hr, by simp [hm]⟩

/-- C6 (witness): the filter at a concrete two-row log and key `"2024-03"`. -/
theorem C6_month_filter_witness :
    filter_by_month dfC6 "All" = dfC6 ∧
    [Value.str "2024-03", Value.str "Gentari"] ∈ (filter_by_month dfC6 "2024-03").rows ∧
    ([Value.str "2024-04", Value.str "Home"] ∈ (filter_by_month dfC6 "2024-03").rows →
      False) :=
  ⟨(C6_month_filter dfC6 "2024-03").1,
   (((C6_month_filter dfC6 "2024-03").2 (by decide)).2.1
     [Value.str "2024-03", Value.str "Gentari"] (by decide) (by decide)),
   fun hmem =>
     absurd ((((C6_month_filter dfC6 "2024-03").2 (by decide)).1
       [Value.str "2024-04", Value.str "Home"] hmem).2) (by decide)⟩

/-- C7: a submission the widgets allow (`kwh ≥ 0.1` enforced by the
`number_input` min value) can never carry non-positive energy, and an empty
provider name (only possible via "Other" with a blank custom field) is
rejected with the user-facing message and nothing is appended to the CSV
(no `saved` result). -/
theorem C7_validation (f : FormInput) (geo : Option (ℚ × ℚ)) (hv : widgetValid f)
    (hbad : f.kwhVal ≤ 0 ∨ providerOf f = "") :
    logSubmit f geo = SubmitResult.rejected "Please specify provider name." ∧
    ∀ row w, logSubmit f geo ≠ SubmitResult.saved row w := by
  have hkwh : (0 : ℚ) < f.kwhVal := lt_of_lt_of_le (by norm_num) hv.1
  have hprov : providerOf f = "" := by
    rcases hbad with h | h
    · exact absurd hkwh (not_lt.mpr h)
    · exact h
  constructor
  · unfold logSubmit
    rw [if_pos hprov]
  · intro row w hsave
    unfold logSubmit at hsave
    rw [if_pos hprov] at hsave
    exact SubmitResult.noConfusion hsave

/-- C7 (witness): a blank "Other" provider at minimal widget-legal inputs
is rejected with the message and not saved. -/
theorem C7_validation_witness :
    logSubmit fC7 none = SubmitResult.rejected "Please specify provider name." ∧
    logSubmit fC7 none ≠ SubmitResult.saved
      [Value.date ⟨2024, 3, 1⟩, Value.str "", Value.str "KLCC", Value.na, Value.na,
       Value.str "AC", Value.num (1/10), Value.num 0, Value.num 0, Value.str "2024-03"] false :=
  ⟨(C7_validation fC7 none ⟨by decide, by decide, by decide⟩ (Or.inr (by decide))).1,
   (C7_validation fC7 none ⟨by decide, by decide, by decide⟩ (Or.inr (by decide))).2 _ _⟩

/-! ## The saved form row -/
theorem logSubmit_saved {f : FormInput} {geo : Option (ℚ × ℚ)} {row : List Value} {w : Bool}
    (h : logSubmit f geo = SubmitResult.saved row w) :
    row = savedRow f geo ∧ w = (finalCoords f geo).2.2 := by
  unfold logSubmit at h
  by_cases hp : providerOf f = ""
  · rw [if_pos hp] at h
    exact SubmitResult.noConfusion h
  · rw [if_neg hp] at h
    injection h with h1 h2
    exact ⟨h1.symm, h2.symm⟩

theorem savedRow_lat (f : FormInput) (geo : Option (ℚ × ℚ)) :
    getCell EXPECTED_COLUMNS (savedRow f geo) "Latitude" = (finalCoords f geo).1 := rfl

theorem savedRow_lon (f : FormInput) (geo : Option (ℚ × ℚ)) :
    getCell EXPECTED_COLUMNS (savedRow f geo) "Longitude" = (finalCoords f geo).2.1 := rfl

theorem savedRow_cpk (f : FormInput) (geo : Option (ℚ × ℚ)) :
    getCell EXPECTED_COLUMNS (savedRow f geo) "Cost_per_kWh" =
      Value.num (compute_cost_per_kwh f.totalCost f.kwhVal) := rfl

/-- Whatever branch the geocoding logic takes, the stored coordinate pair
is either two missing cells or two numeric cells. -/
theorem finalCoords_shape (f : FormInput) (geo : Option (ℚ × ℚ)) :
    ((finalCoords f geo).1 = Value.na ∧ (finalCoords f geo).2.1 = Value.na) ∨
    (∃ a b : ℚ, (finalCoords f geo).1 = Value.num a ∧ (finalCoords f geo).2.1 = Value.num b) := by
  rcases geo with _ | ⟨la, lo⟩ <;> unfold finalCoords <;> dsimp only <;> split_ifs <;>
    first
      | exact Or.inl ⟨rfl, rfl⟩
      | exact Or.inr ⟨_, _, rfl, rfl⟩

theorem setCol_rows_map_mk (cols : List String) (rows : List (List Value)) (c : String)
    (g : List Value → Value) :
    setCol ⟨cols, rows⟩ c (rows.map (fun r => g r)) =
      ⟨colsAfterSet cols c, rows.map (fun r => setCell cols r c (g r))⟩ := by
  unfold setCol
  rw [zipWith_map_self]

/-- The `Cost_per_kWh` column a successful bulk save writes back: every row
is recomputed by the line 352-355 lambda from that row's edited
`Total Cost` and `kWh` cells. -/
theorem bulkSave_cpk (env : PandasEnv) {edited out : DataFrame} (hwf : edited.WF)
    (h : bulkSave env edited = some out) :
    getCol out "Cost_per_kWh" =
      edited.rows.map (fun r =>
        bulk_cost_cell (getCell edited.cols r "Total Cost") (getCell edited.cols r "kWh")) := by
  unfold bulkSave at h
  by_cases hraise :
      edited.rows.any (fun r => dateCellRaises env (getCell edited.cols r "Date")) = true
  · rw [if_pos hraise] at h
    exact Option.noConfusion h
  · rw [if_neg hraise] at h
    by_cases hcols :
        EXPECTED_COLUMNS.all (fun c => (colIdx (bulkFrame env edited).cols c).isSome) = true
    · rw [if_pos hcols] at h
      have hout : out = reindex (bulkFrame env edited) EXPECTED_COLUMNS := (Option.some.inj h).symm
      subst hout
      obtain ⟨cols, rows⟩ := edited
      unfold bulkFrame stepMonth bulkCpkStep stepDate
      simp only [setCol_getCol_map_mk, setCol_rows_map_mk]
      simp only [List.map_map, reindex, getCol, Function.comp]
      refine List.map_congr_left (fun r hrm => ?_)
      have hr0 : r.length = cols.length := hwf r hrm
      set CA := colsAfterSet cols "Date" with hCA_def
      set rA := setCell cols r "Date" (toDatetime env (getCell cols r "Date")) with hrA_def
      set CB := colsAfterSet CA "Cost_per_kWh" with hCB_def
      set vB := bulk_cost_cell (getCell CA rA "Total Cost") (getCell CA rA "kWh") with hvB_def
      set rB := setCell CA rA "Cost_per_kWh" vB with hrB_def
      set CC := colsAfterSet CB "Month" with hCC_def
      set vC := monthValue (getCell CB rB "Date") with hvC_def
      set rC := setCell CB rB "Month" vC with hrC_def
      have hlA : rA.length = CA.length := length_setCell hr0 _ _
      have hlB : rB.length = CB.length := length_setCell hlA _ _
      show getCell EXPECTED_COLUMNS (EXPECTED_COLUMNS.map (fun c => getCell CC rC c))
          "Cost_per_kWh" = bulk_cost_cell (getCell cols r "Total Cost") (getCell cols r "kWh")
      rw [getCell_map_target (by decide : colIdx EXPECTED_COLUMNS "Cost_per_kWh" = some 8),
        hrC_def, hCC_def, getCell_setCell hlB, if_neg (by decide : ¬("Cost_per_kWh" = "Month")),
        hrB_def, hCB_def, getCell_setCell hlA, if_pos rfl, hvB_def,
        hrA_def, hCA_def, getCell_setCell hr0, if_neg (by decide : ¬("Total Cost" = "Date")),
        getCell_setCell hr0, if_neg (by decide : ¬("kWh" = "Date"))]
    · rw [if_neg hcols] at h
      exact Option.noConfusion h

/-- C1: the derived cost-per-kWh is `round(total_cost / energy, 3)` when
the energy is positive and `0` when it is non-positive or missing; this is
what the entry form writes into the appended row (line 194) and what the
bulk edit-and-resave recomputes for every row (lines 352-355); the guarded
definition is total, so no division fault can occur. -/
theorem C1_cost_per_kwh (c e : ℚ) :
    (0 < e → compute_cost_per_kwh c e = round3 (c / e)) ∧
    (e ≤ 0 → compute_cost_per_kwh c e = 0) ∧
    bulk_cost_cell (Value.num c) (Value.num e) = Value.num (compute_cost_per_kwh c e) ∧
    bulk_cost_cell (Value.num c) Value.na = Value.num 0 ∧
    (∀ (f : FormInput) (geo : Option (ℚ × ℚ)) (row : List Value) (w : Bool),
      logSubmit f geo = SubmitResult.saved row w →
      getCell EXPECTED_COLUMNS row "Cost_per_kWh" =
        Value.num (compute_cost_per_kwh f.totalCost f.kwhVal)) ∧
    (∀ (env : PandasEnv) (edited out : DataFrame), edited.WF → bulkSave env edited = some out →
      getCol out "Cost_per_kWh" =
        edited.rows.map (fun r =>
          bulk_cost_cell (getCell edited.cols r "Total Cost") (getCell edited.cols r "kWh"))) := by
  refine ⟨?_, ?_, ?_, rfl, ?_, ?_⟩
  · intro h
    unfold compute_cost_per_kwh
    exact if_pos h
  · intro h
    unfold compute_cost_per_kwh
    exact if_neg (not_lt.mpr h)
  · unfold bulk_cost_cell compute_cost_per_kwh
    dsimp only
    by_cases h : 0 < e
    · rw [if_pos h, if_pos h]
    · rw [if_neg h, if_neg h]
  · intro f geo row w h
    obtain ⟨hrow, _⟩ := logSubmit_saved h
    subst hrow
    exact savedRow_cpk f geo
  · intro env edited out hwf h
    exact bulkSave_cpk env hwf h

/-- C1 (witness): a 30-cost 20-kWh form submission stores cost/kWh 1.5, and
a bulk resave of a row edited to zero energy recomputes its cost/kWh to 0. -/
theorem C1_cost_per_kwh_witness :
    ((0:ℚ) < 20 ∧ compute_cost_per_kwh 30 20 = round3 (30 / 20)) ∧
    ((0:ℚ) ≤ 0 ∧ compute_cost_per_kwh 30 0 = 0) ∧
    (logSubmit fC1 none = SubmitResult.saved rowC1 false ∧
      getCell EXPECTED_COLUMNS rowC1 "Cost_per_kWh" =
        Value.num (compute_cost_per_kwh fC1.totalCost fC1.kwhVal)) ∧
    (dfC1b.WF ∧ bulkSave defaultEnv dfC1b = some outC1b ∧
      getCol outC1b "Cost_per_kWh" =
        dfC1b.rows.map (fun r =>
          bulk_cost_cell (getCell dfC1b.cols r "Total Cost") (getCell dfC1b.cols r "kWh"))) :=
  ⟨⟨by decide, (C1_cost_per_kwh 30 20).1 (by decide)⟩,
   ⟨by decide, (C1_cost_per_kwh 30 0).2.1 (by decide)⟩,
   ⟨by decide, (C1_cost_per_kwh 30 20).2.2.2.2.1 fC1 none rowC1 false (by decide)⟩,
   ⟨by decide, by decide,
    (C1_cost_per_kwh 30 20).2.2.2.2.2 defaultEnv dfC1b outC1b (by decide) (by decide)⟩⟩

/-- C2 (counterexample): `load_data` coerces each coordinate column
independently, so a stored record with a numeric latitude and a non-numeric
longitude loads with exactly one of the two coordinates set. -/
theorem C2_coords_counterexample :
    getCell (load_data defaultEnv (some dfC2)).df.cols
        ((load_data defaultEnv (some dfC2)).df.rows.getD 0 []) "Latitude" = Value.num 3 ∧
    getCell (load_data defaultEnv (some dfC2)).df.cols
        ((load_data defaultEnv (some dfC2)).df.rows.getD 0 []) "Longitude" = Value.na := by
  decide

/-- C2 (amended): every session saved through the entry form has both
coordinates present or both absent; the load path does not restore this
invariant, since it coerces `Latitude` and `Longitude` independently. -/
theorem C2_coords_amended (f : FormInput) (geo : Option (ℚ × ℚ)) (row : List Value) (w : Bool)
    (h : logSubmit f geo = SubmitResult.saved row w) :
    (getCell EXPECTED_COLUMNS row "Latitude" = Value.na ∧
      getCell EXPECTED_COLUMNS row "Longitude" = Value.na) ∨
    (∃ a b : ℚ, getCell EXPECTED_COLUMNS row "Latitude" = Value.num a ∧
      getCell EXPECTED_COLUMNS row "Longitude" = Value.num b) := by
  obtain ⟨hrow, _⟩ := logSubmit_saved h
  subst hrow
  rw [savedRow_lat, savedRow_lon]
  exact finalCoords_shape f geo

/-- C2 (witness): a submission with both coordinates left at the 0.0
sentinel and no location name saves with both coordinates absent. -/
theorem C2_coords_amended_witness :
    logSubmit fC2w none = SubmitResult.saved rowC2w false ∧
    ((getCell EXPECTED_COLUMNS rowC2w "Latitude" = Value.na ∧
       getCell EXPECTED_COLUMNS rowC2w "Longitude" = Value.na) ∨
     (∃ a b : ℚ, getCell EXPECTED_COLUMNS rowC2w "Latitude" = Value.num a ∧
       getCell EXPECTED_COLUMNS rowC2w "Longitude" = Value.num b)) :=
  ⟨by decide, C2_coords_amended fC2w none rowC2w false (by decide)⟩

/-- C10 (counterexample): latitude left at the 0.0 sentinel, longitude 5
supplied by the user, location non-empty; geocoding **succeeds** with the
pair (0, 101) — but line 181 tests `if found_lat:` and 0.0 is falsy, so
the session is stored with both coordinates absent rather than with the
geocoded pair, and the warning path is taken. -/
theorem C10_truthiness_counterexample :
    logSubmit fC10 (some (0, 101)) = SubmitResult.saved rowC10 true ∧
    getCell EXPECTED_COLUMNS rowC10 "Latitude" = Value.na ∧
    getCell EXPECTED_COLUMNS rowC10 "Longitude" = Value.na ∧
    Value.na ≠ Value.num 0 ∧ Value.na ≠ Value.num 101 := by decide

/-- C10 (amended): with exactly one coordinate at the 0.0 sentinel, the
other non-zero, and a non-empty location: a geocoding success with
non-zero latitude stores the geocoded pair; a geocoding failure — or a
success whose latitude is exactly 0, which the Python truthiness test at
line 181 conflates with failure — stores both coordinates absent and shows
the warning.  In every branch the user's lone non-zero coordinate is
discarded. -/
theorem C10_geocode_amended (f : FormInput) (geo : Option (ℚ × ℚ)) (row : List Value) (w : Bool)
    (hone : (f.latVal = 0 ∧ f.lonVal ≠ 0) ∨ (f.latVal ≠ 0 ∧ f.lonVal = 0))
    (hloc : ¬(pyStrip f.locationName = ""))
    (h : logSubmit f geo = SubmitResult.saved row w) :
    (∀ la lo : ℚ, geo = some (la, lo) → ¬(la = 0) →
      getCell EXPECTED_COLUMNS row "Latitude" = Value.num la ∧
      getCell EXPECTED_COLUMNS row "Longitude" = Value.num lo) ∧
    (∀ la lo : ℚ, geo = some (la, lo) → la = 0 →
      getCell EXPECTED_COLUMNS row "Latitude" = Value.na ∧
      getCell EXPECTED_COLUMNS row "Longitude" = Value.na ∧ w = true) ∧
    (geo = none →
      getCell EXPECTED_COLUMNS row "Latitude" = Value.na ∧
      getCell EXPECTED_COLUMNS row "Longitude" = Value.na ∧ w = true) := by
  obtain ⟨hrow, hw⟩ := logSubmit_saved h
  subst hrow hw
  have hcond : (f.latVal = 0 ∨ f.lonVal = 0) ∧ ¬(pyStrip f.locationName = "") := by
    rcases hone with ⟨h1, _⟩ | ⟨_, h2⟩
    exacts [⟨Or.inl h1, hloc⟩, ⟨Or.inr h2, hloc⟩]
  refine ⟨?_, ?_, ?_⟩
  · intro la lo hg hla
    subst hg
    rw [savedRow_lat, savedRow_lon]
    unfold finalCoords
    rw [if_pos hcond]
    dsimp only
    rw [if_pos hla]
    exact ⟨rfl, rfl⟩
  · intro la lo hg hla
    subst hg
    rw [savedRow_lat, savedRow_lon]
    unfold finalCoords
    rw [if_pos hcond]
    dsimp only
    rw [if_neg (not_not.mpr hla)]
    exact ⟨rfl, rfl, rfl⟩
  · intro hg
    subst hg
    rw [savedRow_lat, savedRow_lon]
    unfold finalCoords
    rw [if_pos hcond]
    exact ⟨rfl, rfl, rfl⟩

/-- C10 (witness): same submission as the counterexample but geocoding
returns (3, 101); both stored coordinates are the geocoded pair and the
user's longitude 5 is discarded. -/
theorem C10_geocode_amended_witness :
    logSubmit fC10 (some (3, 101)) = SubmitResult.saved rowC10w false ∧
    (getCell EXPECTED_COLUMNS rowC10w "Latitude" = Value.num 3 ∧
      getCell EXPECTED_COLUMNS rowC10w "Longitude" = Value.num 101) :=
  ⟨by decide,
   (C10_geocode_amended fC10 (some (3, 101)) rowC10w false (Or.inl ⟨rfl, by decide⟩)
     (by decide) (by decide)).1 3 101 rfl (by decide)⟩

/-! ## Date-keyed aggregates ignore dateless rows -/
theorem filterMap_filter_isSome {α β : Type} (f : α → Option β) (l : List α) :
    (l.filter (fun a => (f a).isSome)).filterMap f = l.filterMap f := by
  induction l with
  | nil => rfl
  | cons a l ih =>
    cases h : f a with
    | none => simp [List.filter, List.filterMap, h, ih]
    | some b => simp [List.filter, List.filterMap, h, ih]

theorem filter_filter_of_imp {α : Type} (p q : α → Bool)
    (h : ∀ a, q a = true → p a = true) (l : List α) :
    (l.filter p).filter q = l.filter q := by
  induction l with
  | nil => rfl
  | cons a l ih =>
    by_cases hq : q a = true
    · have hp := h a hq
      simp [List.filter, hp, hq, ih]
    · by_cases hp : p a = true <;>
        simp [List.filter, hp, hq, ih]

theorem daySum_filter (cols : List String) (rows : List (List Value)) (d : Date) :
    daySum cols (rows.filter (fun r => (valAsDate (getCell cols r "Date")).isSome)) d =
      daySum cols rows d := by
  unfold daySum
  rw [filter_filter_of_imp]
  intro r hr
  have : getCell cols r "Date" = Value.date d := by simpa using hr
  simp [this, valAsDate]

/-- The daily-spend aggregate is unchanged by dropping every row whose
`Date` cell is not an actual date: `groupby` drops the `NaT` keys and the
per-date sums never touch dateless rows. -/
theorem dailySpend_dateless (df : DataFrame) :
    dailySpend df =
      dailySpend ⟨df.cols, df.rows.filter (fun r => (valAsDate (getCell df.cols r "Date")).isSome)⟩ := by
  unfold dailySpend
  dsimp only
  rw [filterMap_filter_isSome]
  refine List.map_congr_left (fun d _ => ?_)
  rw [daySum_filter]

/-- C4 (counterexample): a record whose date cannot be parsed derives the
literal `Month` string "NaT"; that string is offered in the month dropdown
and exact-match filtering by the key "NaT" **includes** the record — it is
not excluded from every month-keyed filter. -/
theorem C4_natkey_counterexample :
    "NaT" ∈ month_options (load_data defaultEnv (some dfC4)).df ∧
    (filter_by_month (load_data defaultEnv (some dfC4)).df "NaT").rows.length = 1 ∧
    getCell cols_to_use
        ((filter_by_month (load_data defaultEnv (some dfC4)).df "NaT").rows.getD 0 [])
        "Date" = Value.na := by
  decide

/-- C4 (amended): a record whose stored date string fails to parse is
retained by `load_data` (same row count, same position) with an absent
`Date`; it is excluded from the daily-spend grouping (which ignores
dateless rows) and from month filtering by any key other than the literal
string "NaT" — but its derived `Month` field is that string "NaT", so the
"NaT" dropdown key does match it. -/
theorem C4_unparseable_dates_amended (env : PandasEnv) (df : DataFrame) (hwf : df.WF)
    (hdate : (colIdx df.cols "Date").isSome = true)
    (i : Nat) (hi : i < df.rows.length) (s : String)
    (hcell : getCell df.cols (df.rows.getD i []) "Date" = Value.str s)
    (hparse : env.parseDate s = none) :
    (load_data env (some df)).df.rows.length = df.rows.length ∧
    getCell cols_to_use ((load_data env (some df)).df.rows.getD i []) "Date" = Value.na ∧
    getCell cols_to_use ((load_data env (some df)).df.rows.getD i []) "Month" = Value.str "NaT" ∧
    (∀ key, key ≠ "All" → key ≠ "NaT" →
      ((load_data env (some df)).df.rows.getD i []) ∉
        (filter_by_month (load_data env (some df)).df key).rows) ∧
    (∀ dfx : DataFrame, dailySpend dfx =
      dailySpend ⟨dfx.cols, dfx.rows.filter (fun r => (valAsDate (getCell dfx.cols r "Date")).isSome)⟩) := by
  rw [load_data_success env df hwf (Or.inl hdate)]
  dsimp only
  have hgetD : (df.rows.map (fun r => cols_to_use.map (normCell env df.cols r))).getD i [] =
      cols_to_use.map (normCell env df.cols (df.rows.getD i [])) := getD_map _ hi [] []
  have hD : getCell cols_to_use
      (cols_to_use.map (normCell env df.cols (df.rows.getD i []))) "Date" =
      normCell env df.cols (df.rows.getD i []) "Date" :=
    getCell_map_target (by decide : colIdx cols_to_use "Date" = some 0) _
  have hM : getCell cols_to_use
      (cols_to_use.map (normCell env df.cols (df.rows.getD i []))) "Month" =
      normCell env df.cols (df.rows.getD i []) "Month" :=
    getCell_map_target (by decide : colIdx cols_to_use "Month" = some 9) _
  have hDval : normCell env df.cols (df.rows.getD i []) "Date" = Value.na := by
    unfold normCell
    rw [if_pos rfl, hcell]
    unfold toDatetime
    dsimp only
    rw [hparse]
    rfl
  have hMval : normCell env df.cols (df.rows.getD i []) "Month" = Value.str "NaT" := by
    unfold normCell
    rw [if_neg (by decide : ¬("Month" = "Date")), if_pos rfl, hcell]
    unfold toDatetime
    dsimp only
    rw [hparse]
    rfl
  refine ⟨by simp, ?_, ?_, ?_, fun dfx => dailySpend_dateless dfx⟩
  · dsimp only
    rw [hgetD, hD, hDval]
  · dsimp only
    rw [hgetD, hM, hMval]
  · intro key hA hN hmem
    unfold filter_by_month at hmem
    rw [if_neg hA] at hmem
    dsimp only at hmem
    have := (List.mem_filter.mp hmem).2
    rw [hgetD, beq_iff_eq, hM, hMval] at this
    exact hN (by injection this with h1; exact h1.symm)

/-- C4 (witness): the two-row frame with one bad date, instantiated. -/
theorem C4_unparseable_dates_amended_witness :
    (load_data defaultEnv (some dfC4)).df.rows.length = dfC4.rows.length ∧
    getCell cols_to_use ((load_data defaultEnv (some dfC4)).df.rows.getD 1 []) "Date" =
      Value.na ∧
    getCell cols_to_use ((load_data defaultEnv (some dfC4)).df.rows.getD 1 []) "Month" =
      Value.str "NaT" ∧
    ((load_data defaultEnv (some dfC4)).df.rows.getD 1 []) ∉
      (filter_by_month (load_data defaultEnv (some dfC4)).df "2024-03").rows ∧
    dailySpend dfC4 =
      dailySpend ⟨dfC4.cols, dfC4.rows.filter
        (fun r => (valAsDate (getCell dfC4.cols r "Date")).isSome)⟩ := by
  have h := C4_unparseable_dates_amended defaultEnv dfC4 (by decide) (by decide) 1 (by decide)
    "bad-date" (by decide) (by decide)
  exact ⟨h.1, h.2.1, h.2.2.1, h.2.2.2.1 "2024-03" (by decide) (by decide), h.2.2.2.2 dfC4⟩

/-! ## Idempotency of the normalize pass -/
theorem normCell_idem (env : PandasEnv) (cols : List String) (r : List Value) (c : String)
    (hc : c ∈ cols_to_use) :
    normCell env cols_to_use (cols_to_use.map (normCell env cols r)) c =
      normCell env cols r c := by
  have hD := getCell_map_target (by decide : colIdx cols_to_use "Date" = some 0)
    (normCell env cols r)
  have hProv := getCell_map_target (by decide : colIdx cols_to_use "Provider" = some 1)
    (normCell env cols r)
  have hLoc := getCell_map_target (by decide : colIdx cols_to_use "Location" = some 2)
    (normCell env cols r)
  have hLat := getCell_map_target (by decide : colIdx cols_to_use "Latitude" = some 3)
    (normCell env cols r)
  have hLon := getCell_map_target (by decide : colIdx cols_to_use "Longitude" = some 4)
    (normCell env cols r)
  have hType := getCell_map_target (by decide : colIdx cols_to_use "Type" = some 5)
    (normCell env cols r)
  have hkwh := getCell_map_target (by decide : colIdx cols_to_use "kWh" = some 6)
    (normCell env cols r)
  have hTC := getCell_map_target (by decide : colIdx cols_to_use "Total Cost" = some 7)
    (normCell env cols r)
  have hCPK := getCell_map_target (by decide : colIdx cols_to_use "Cost_per_kWh" = some 8)
    (normCell env cols r)
  have hMon := getCell_map_target (by decide : colIdx cols_to_use "Month" = some 9)
    (normCell env cols r)
  have hDay := getCell_map_target (by decide : colIdx cols_to_use "Day" = some 10)
    (normCell env cols r)
  simp only [cols_to_use, EXPECTED_COLUMNS, List.mem_append, List.mem_cons,
    List.mem_singleton, List.not_mem_nil, or_false, or_assoc] at hc
  rcases hc with rfl | rfl | rfl | rfl | rfl | rfl | rfl | rfl | rfl | rfl | rfl <;>
    simp [normCell, hD, hProv, hLoc, hLat, hLon, hType, hkwh, hTC, hCPK, hMon, hDay,
      toDatetime_idem, toNumeric_idem]

/-- C5 (counterexample): normalizing is not idempotent across the failure
path: on a non-empty frame without a `Date` column, `load_data` returns the
ten-column empty fallback frame, and normalizing that readable frame again
returns the eleven-column (plus `Day`) empty frame — a different
collection. -/
theorem C5_idempotent_counterexample :
    (load_data defaultEnv (some (load_data defaultEnv (some dfC5x)).df)).df ≠
      (load_data defaultEnv (some dfC5x)).df := by
  decide

/-- C5 (amended): on every input the load actually accepts — a well-formed
frame that is empty or has a `Date` column — normalization is idempotent:
loading its own output reproduces it exactly. -/
theorem C5_idempotent_amended (env : PandasEnv) (df : DataFrame) (hwf : df.WF)
    (hok : (colIdx df.cols "Date").isSome = true ∨ df.rows = []) :
    load_data env (some (load_data env (some df)).df) = load_data env (some df) := by
  rw [load_data_success env df hwf hok]
  have hwf2 : DataFrame.WF
      ⟨cols_to_use, df.rows.map (fun r => cols_to_use.map (normCell env df.cols r))⟩ := by
    intro r hr
    simp only [List.mem_map] at hr
    obtain ⟨a, _, rfl⟩ := hr
    simp
  have hok2 : (colIdx (DataFrame.mk cols_to_use
      (df.rows.map (fun r => cols_to_use.map (normCell env df.cols r)))).cols "Date").isSome
      = true := by
    dsimp only
    decide
  rw [load_data_success env
    ⟨cols_to_use, df.rows.map (fun r => cols_to_use.map (normCell env df.cols r))⟩ hwf2
    (Or.inl hok2)]
  show LoadResult.mk
      ⟨cols_to_use,
       (df.rows.map (fun r => cols_to_use.map (normCell env df.cols r))).map
         (fun r2 => cols_to_use.map (normCell env cols_to_use r2))⟩ false =
    LoadResult.mk
      ⟨cols_to_use, df.rows.map (fun r => cols_to_use.map (normCell env df.cols r))⟩ false
  refine congrArg (fun d => LoadResult.mk d false) ?_
  refine congrArg (DataFrame.mk cols_to_use) ?_
  rw [List.map_map]
  refine List.map_congr_left (fun r _ => ?_)
  show cols_to_use.map (normCell env cols_to_use (cols_to_use.map (normCell env df.cols r))) =
    cols_to_use.map (normCell env df.cols r)
  exact List.map_congr_left (fun c hc => normCell_idem env df.cols r c hc)

/-- C5 (witness): idempotency at a concrete one-row well-formed frame. -/
theorem C5_idempotent_amended_witness :
    load_data defaultEnv (some (load_data defaultEnv (some dfC5w)).df) =
      load_data defaultEnv (some dfC5w) :=
  C5_idempotent_amended defaultEnv dfC5w (by decide) (Or.inl (by decide))

/-! ## Top spending locations -/
/-- C9: the top-spending-locations view of a non-empty log keeps at most 5
entries, is sorted non-increasingly by the summed cost, each entry carries
the exact sum of `Total Cost` over the named rows with its location key,
and every key comes from a session whose location passes the
non-empty-after-strip test — whitespace-only locations are excluded.  Tied
sums may appear in any order (the source leaves the tie order to an
unstable quicksort). -/
theorem C9_top_locations (df : DataFrame) (_hne : df.rows ≠ []) :
    (top_locations df).length ≤ 5 ∧
    List.Sorted leBySum (top_locations df) ∧
    (∀ p ∈ top_locations df,
      p.2 = locSum df.cols (namedRows df) p.1 ∧
      ∃ r ∈ df.rows, namedLocPred df.cols r = true ∧ getCell df.cols r "Location" = p.1) ∧
    (∀ p ∈ top_locations df, ∀ t : String, p.1 = Value.str t → ¬(pyStrip t = "")) := by
  refine ⟨?_, ?_, ?_, ?_⟩
  · unfold top_locations
    rw [List.length_take]
    exact min_le_left _ _
  · exact List.Pairwise.sublist (List.take_sublist _ _)
      (List.sorted_insertionSort leBySum _)
  · intro p hp
    have hp2 : p ∈ (((namedRows df).map (fun r => getCell df.cols r "Location")).dedup).map
        (fun k => (k, locSum df.cols (namedRows df) k)) :=
      (List.mem_insertionSort leBySum).mp (List.mem_of_mem_take hp)
    obtain ⟨k, hk, rfl⟩ := List.mem_map.mp hp2
    refine ⟨rfl, ?_⟩
    obtain ⟨r, hr, rfl⟩ := List.mem_map.mp (List.mem_dedup.mp hk)
    have hr2 := List.mem_filter.mp hr
    exact ⟨r, hr2.1, hr2.2, rfl⟩
  · intro p hp t hpt
    have hp2 : p ∈ (((namedRows df).map (fun r => getCell df.cols r "Location")).dedup).map
        (fun k => (k, locSum df.cols (namedRows df) k)) :=
      (List.mem_insertionSort leBySum).mp (List.mem_of_mem_take hp)
    obtain ⟨k, hk, rfl⟩ := List.mem_map.mp hp2
    obtain ⟨r, hr, hrk⟩ := List.mem_map.mp (List.mem_dedup.mp hk)
    have hr2 := (List.mem_filter.mp hr).2
    have hk2 : k = Value.str t := hpt
    rw [hk2] at hrk
    unfold namedLocPred at hr2
    rw [hrk] at hr2
    simpa using hr2

/-- C9 (witness): a four-session log with a whitespace-only location; the
view is `[("Ipoh", 70), ("KLCC", 50)]`, sorted, within the cap, with exact
sums, and the 99-cost whitespace row contributes nothing. -/
theorem C9_top_locations_witness :
    (top_locations dfC9).length ≤ 5 ∧
    List.Sorted leBySum (top_locations dfC9) ∧
    ((70 : ℚ) = locSum dfC9.cols (namedRows dfC9) (Value.str "Ipoh") ∧
      ∃ r ∈ dfC9.rows, namedLocPred dfC9.cols r = true ∧
        getCell dfC9.cols r "Location" = Value.str "Ipoh") ∧
    ¬(pyStrip "Ipoh" = "") := by
  have h := C9_top_locations dfC9 (by decide)
  exact ⟨h.1, h.2.1, h.2.2.1 (Value.str "Ipoh", 70) (by decide),
    h.2.2.2 (Value.str "Ipoh", 70) (by decide) "Ipoh" rfl⟩

end EVApp







